import Mathlib

/-!
Shallow embedding of the sky-sql flight-delay analytics tool
(`src/data.py`, the DAL, and `src/main.py`, the aggregation /
presentation layer), together with theorems settling the claims of the
specification against it.

Rows returned by SQLAlchemy are modelled as association lists from
column name to an SQL value (integer, text or NULL).  The relational
store is modelled as three lists (`flights`, `airlines`, `airports`)
and each fixed query string of the source gets an evaluation function
transcribing its SQL meaning (joins, WHERE filter, projection) over
that store.  The fallible engine boundary is modelled separately as an
oracle `String → Params → Except String (List Row)`: `Except.error`
stands for any exception raised during execution.
-/

namespace SkySql

/-- An SQL value as surfaced through a SQLAlchemy row: integer, text, or NULL. -/
inductive Value where
  | vInt : Int → Value
  | vStr : String → Value
  | vNull : Value
deriving DecidableEq, Repr

/-- Python `str()` of a value, as used by f-string interpolation in `print_results`. -/
def Value.pyStr : Value → String
  | .vInt n => toString n
  | .vStr s => s
  | .vNull => "None"

/-- A result record: mapping from column name to value (SQLAlchemy `row._mapping`). -/
abbrev Row := List (String × Value)

/-- Column lookup in a row; `none` models a `KeyError` on access. -/
def lookupCol (r : Row) (c : String) : Option Value :=
  (r.find? (fun p => p.1 = c)).map (fun p => p.2)

/-- A row of the `flights` table (attributes per §3 of the spec; `airline` is the
foreign key into `airlines`). -/
structure Flight where
  id : Int
  year : Int
  month : Int
  day : Int
  departureTime : Option String
  departureDelay : Option Int
  arrivalDelay : Option Int
  airlineDelay : Option Int
  weatherDelay : Option Int
  securityDelay : Option Int
  airSystemDelay : Option Int
  lateAircraftDelay : Option Int
  originAirport : Option String
  destinationAirport : Option String
  airline : Int
deriving DecidableEq, Repr

/-- A row of the `airlines` table. -/
structure Airline where
  id : Int
  name : String
deriving DecidableEq, Repr

/-- A row of the `airports` table (coordinates are opaque here: no claim computes with them). -/
structure Airport where
  iata_code : String
  name : String
  latitude : Option Int
  longitude : Option Int
deriving DecidableEq, Repr

/-- The relational store. -/
structure DB where
  flights : List Flight
  airlines : List Airline
  airports : List Airport
deriving DecidableEq, Repr

/-! ### SQL string primitives: LOWER and LIKE -/

/-- SQLite `LOWER`: ASCII-only lowercasing (`Char.toLower` is ASCII-only too). -/
def lowerStr (s : String) : String :=
  String.mk (s.toList.map Char.toLower)

/-- Worker for SQLite `LIKE`, structurally recursive on a fuel bound of
`p.length + s.length + 1` so that it evaluates by reduction. -/
def likeGo : Nat → List Char → List Char → Bool
  | 0, _, _ => false
  | _ + 1, [], [] => true
  | _ + 1, [], _ :: _ => false
  | k + 1, '%' :: ps, [] => likeGo k ps []
  | k + 1, '%' :: ps, c :: s => likeGo k ps (c :: s) || likeGo k ('%' :: ps) s
  | _ + 1, '_' :: _, [] => false
  | k + 1, '_' :: ps, _ :: s => likeGo k ps s
  | _ + 1, _ :: _, [] => false
  | k + 1, p :: ps, c :: s => (p = c) && likeGo k ps s

/-- SQLite `LIKE` pattern matching (no ESCAPE clause): `%` matches any
sequence, `_` matches any single character, everything else literally.
Both sides are already lowercased by the queries, so literal characters
compare by equality. `likeMatch p s` is `s LIKE p`. -/
def likeMatch (p s : List Char) : Bool :=
  likeGo (p.length + s.length + 1) p s

/-- `s LIKE pat` with both sides lowercased, as in
`LOWER(col) LIKE LOWER(:param)`. -/
def likeCI (pat s : String) : Bool :=
  likeMatch (lowerStr pat).toList (lowerStr s).toList

/-! ### Query strings of `src/data.py` -/

namespace Data

def QUERY_FLIGHT_BY_ID : String :=
  "SELECT flights.*, airlines.airline, flights.ID as FLIGHT_ID, flights.DEPARTURE_DELAY as DELAY FROM flights JOIN airlines ON flights.airline = airlines.id WHERE flights.ID = :id"

def QUERY_FLIGHT_BY_DATE : String :=
  "SELECT flights.*, airlines.airline, flights.ID as FLIGHT_ID, flights.DEPARTURE_DELAY as DELAY FROM flights JOIN airlines ON flights.airline = airlines.id WHERE flights.day = :day AND flights.month = :month AND flights.year = :year"

def QUERY_DELAYED_FLIGHT_BY_AIRLINE : String :=
  "SELECT flights.*, airlines.airline, flights.ID as FLIGHT_ID, flights.DEPARTURE_DELAY as DELAY, flights.AIRLINE_DELAY FROM flights JOIN airlines ON flights.airline = airlines.id WHERE DELAY IS NOT NULL AND (flights.AIRLINE_DELAY IS NOT NULL OR flights.WEATHER_DELAY IS NOT NULL OR flights.LATE_AIRCRAFT_DELAY IS NOT NULL OR flights.SECURITY_DELAY IS NOT NULL OR flights.AIR_SYSTEM_DELAY IS NOT NULL OR flights.ARRIVAL_DELAY IS NOT NULL) AND LOWER(airlines.AIRLINE) LIKE LOWER(:airline)"

def QUERY_DELAYED_FLIGHT_BY_AIRPORT : String :=
  "SELECT flights.*, airports.airport, flights.ID as FLIGHT_ID, flights.DEPARTURE_DELAY as DELAY, flights.AIRLINE_DELAY FROM flights JOIN airports ON flights.ORIGIN_AIRPORT = airports.IATA_CODE WHERE (DELAY IS NOT NULL OR flights.AIRLINE_DELAY IS NOT NULL OR flights.WEATHER_DELAY IS NOT NULL OR flights.LATE_AIRCRAFT_DELAY IS NOT NULL OR flights.SECURITY_DELAY IS NOT NULL OR flights.AIR_SYSTEM_DELAY IS NOT NULL OR flights.ARRIVAL_DELAY IS NOT NULL) AND LOWER(airports.IATA_CODE) LIKE LOWER(:airport)"

end Data

/-! ### Semantics of the fixed DAL queries over the store -/

/-- `FROM flights JOIN airlines ON flights.airline = airlines.id`. -/
def joinFlightsAirlines (db : DB) : List (Flight × Airline) :=
  db.flights.flatMap (fun f =>
    (db.airlines.filter (fun a => a.id == f.airline)).map (fun a => (f, a)))

/-- `FROM flights JOIN airports ON flights.ORIGIN_AIRPORT = airports.IATA_CODE`
(a NULL origin joins nothing). -/
def joinFlightsAirports (db : DB) : List (Flight × Airport) :=
  db.flights.flatMap (fun f =>
    (db.airports.filter (fun ap => f.originAirport == some ap.iata_code)).map
      (fun ap => (f, ap)))

def optInt : Option Int → Value
  | some n => .vInt n
  | none => .vNull

def optStr : Option String → Value
  | some s => .vStr s
  | none => .vNull

/-- The columns produced by `flights.*` (column names as declared in the store). -/
def flightCols (f : Flight) : Row :=
  [("ID", .vInt f.id), ("YEAR", .vInt f.year), ("MONTH", .vInt f.month),
   ("DAY", .vInt f.day), ("DEPARTURE_TIME", optStr f.departureTime),
   ("DEPARTURE_DELAY", optInt f.departureDelay),
   ("ARRIVAL_DELAY", optInt f.arrivalDelay),
   ("AIRLINE_DELAY", optInt f.airlineDelay),
   ("WEATHER_DELAY", optInt f.weatherDelay),
   ("SECURITY_DELAY", optInt f.securityDelay),
   ("AIR_SYSTEM_DELAY", optInt f.airSystemDelay),
   ("LATE_AIRCRAFT_DELAY", optInt f.lateAircraftDelay),
   ("ORIGIN_AIRPORT", optStr f.originAirport),
   ("DESTINATION_AIRPORT", optStr f.destinationAirport),
   ("AIRLINE", .vInt f.airline)]

/-- Projection of `QUERY_FLIGHT_BY_ID` / `QUERY_FLIGHT_BY_DATE`:
`flights.*, airlines.airline, flights.ID as FLIGHT_ID, DEPARTURE_DELAY as DELAY`. -/
def rowFlightAirline (f : Flight) (a : Airline) : Row :=
  flightCols f ++
    [("airline", .vStr a.name), ("FLIGHT_ID", .vInt f.id),
     ("DELAY", optInt f.departureDelay)]

/-- Projection of `QUERY_DELAYED_FLIGHT_BY_AIRLINE` (adds `flights.AIRLINE_DELAY`). -/
def rowDelayedByAirlineQuery (f : Flight) (a : Airline) : Row :=
  flightCols f ++
    [("airline", .vStr a.name), ("FLIGHT_ID", .vInt f.id),
     ("DELAY", optInt f.departureDelay),
     ("AIRLINE_DELAY", optInt f.airlineDelay)]

/-- Projection of `QUERY_DELAYED_FLIGHT_BY_AIRPORT`
(`flights.*, airports.airport, FLIGHT_ID, DELAY, AIRLINE_DELAY`; note: no
airlines join, so the only column named `AIRLINE` is the foreign key from
`flights.*`). -/
def rowDelayedByAirportQuery (f : Flight) (ap : Airport) : Row :=
  flightCols f ++
    [("airport", .vStr ap.name), ("FLIGHT_ID", .vInt f.id),
     ("DELAY", optInt f.departureDelay),
     ("AIRLINE_DELAY", optInt f.airlineDelay)]

/-- The OR of cause-field non-null tests shared by both delayed-flight queries,
in source order: `AIRLINE_DELAY, WEATHER_DELAY, LATE_AIRCRAFT_DELAY,
SECURITY_DELAY, AIR_SYSTEM_DELAY, ARRIVAL_DELAY`. -/
def causeNonNull (f : Flight) : Bool :=
  f.airlineDelay.isSome || f.weatherDelay.isSome || f.lateAircraftDelay.isSome ||
  f.securityDelay.isSome || f.airSystemDelay.isSome || f.arrivalDelay.isSome

/-- WHERE clause of `QUERY_DELAYED_FLIGHT_BY_AIRLINE` (`DELAY` is the alias
for `flights.DEPARTURE_DELAY`): departure delay non-null AND a cause field
non-null AND case-insensitive LIKE on the airline name. -/
def whereDelayedByAirline (pat : String) (f : Flight) (a : Airline) : Bool :=
  f.departureDelay.isSome && causeNonNull f && likeCI pat a.name

/-- WHERE clause of `QUERY_DELAYED_FLIGHT_BY_AIRPORT`: departure delay is just
one more disjunct of the OR, there is no standalone non-null requirement on it. -/
def whereDelayedByAirport (pat : String) (f : Flight) (ap : Airport) : Bool :=
  (f.departureDelay.isSome || causeNonNull f) && likeCI pat ap.iata_code

/-- Evaluation of `QUERY_FLIGHT_BY_ID` over the store. -/
def evalFlightById (db : DB) (id : Int) : List Row :=
  ((joinFlightsAirlines db).filter (fun p => p.1.id == id)).map
    (fun p => rowFlightAirline p.1 p.2)

/-- Evaluation of `QUERY_FLIGHT_BY_DATE` over the store. -/
def evalFlightByDate (db : DB) (day month year : Int) : List Row :=
  ((joinFlightsAirlines db).filter
      (fun p => p.1.day == day && p.1.month == month && p.1.year == year)).map
    (fun p => rowFlightAirline p.1 p.2)

/-- Evaluation of `QUERY_DELAYED_FLIGHT_BY_AIRLINE` over the store. -/
def evalDelayedByAirline (db : DB) (pat : String) : List Row :=
  ((joinFlightsAirlines db).filter (fun p => whereDelayedByAirline pat p.1 p.2)).map
    (fun p => rowDelayedByAirlineQuery p.1 p.2)

/-- Evaluation of `QUERY_DELAYED_FLIGHT_BY_AIRPORT` over the store. -/
def evalDelayedByAirport (db : DB) (pat : String) : List Row :=
  ((joinFlightsAirports db).filter (fun p => whereDelayedByAirport pat p.1 p.2)).map
    (fun p => rowDelayedByAirportQuery p.1 p.2)

/-! ### Python `datetime` date validation (used by `get_flights_by_date`) -/

/-- The Gregorian leap-year rule, as implemented by Python's `datetime`. -/
def isLeapYear (y : Int) : Bool :=
  y % 4 == 0 && (y % 100 != 0 || y % 400 == 0)

/-- Days in a month per Python's `datetime`. -/
def daysInMonth (y m : Int) : Int :=
  if m == 2 then (if isLeapYear y then 29 else 28)
  else if m == 4 || m == 6 || m == 9 || m == 11 then 30
  else 31

/-- `datetime(year, month, day)` succeeds iff this holds: Python's constructor
additionally restricts the year to `MINYEAR = 1 .. MAXYEAR = 9999`. -/
def datetimeValid (y m d : Int) : Bool :=
  1 ≤ y && y ≤ 9999 && 1 ≤ m && m ≤ 12 && 1 ≤ d && d ≤ daysInMonth y m

/-- Modelled from the spec: "a valid calendar date (e.g., day ≤ days-in-month,
accounting for leap years)" — month in 1..12 and day in 1..days-in-month. -/
def specValidDate (d m y : Int) : Bool :=
  1 ≤ m && m ≤ 12 && 1 ≤ d && d ≤ daysInMonth y m

/-! ### The DAL over a fallible engine (`src/data.py`, class `FlightData`)

The engine boundary is an oracle taking the query text and the bind
parameters; `Except.error e` stands for any exception raised while
executing.  Each DAL call is instrumented with the list of queries it
submitted to the engine and the diagnostics it printed. -/

abbrev Params := List (String × Value)

abbrev Engine := String → Params → Except String (List Row)

/-- Result of one DAL call: the returned rows, the (query, params) pairs
actually submitted to the engine, and the diagnostic messages printed. -/
structure DalCall where
  rows : List Row
  executed : List (String × Params)
  messages : List String
deriving DecidableEq, Repr

namespace FlightData

/-- `FlightData._execute_query`: run the query; on any exception print the
error and return an empty list. -/
def execute_query (ex : Engine) (query : String) (params : Params) : DalCall :=
  match ex query params with
  | .ok rows => { rows := rows, executed := [(query, params)], messages := [] }
  | .error e =>
      { rows := [], executed := [(query, params)],
        messages := ["Error executing query: " ++ e] }

/-- `FlightData.get_flight_by_id`. -/
def get_flight_by_id (ex : Engine) (flight_id : Int) : DalCall :=
  execute_query ex Data.QUERY_FLIGHT_BY_ID [("id", .vInt flight_id)]

/-- `FlightData.get_flights_by_date`: validate the triple through
`datetime(year, month, day)`; on `ValueError` print the diagnostic and
return an empty list without touching the engine. -/
def get_flights_by_date (ex : Engine) (day month year : Int) : DalCall :=
  if datetimeValid year month day then
    execute_query ex Data.QUERY_FLIGHT_BY_DATE
      [("day", .vInt day), ("month", .vInt month), ("year", .vInt year)]
  else
    { rows := [], executed := [],
      messages := ["Invalid date format. Use DD/MM/YYYY."] }

/-- `FlightData.get_delayed_flights_by_airline`. -/
def get_delayed_flights_by_airline (ex : Engine) (airline : String) : DalCall :=
  execute_query ex Data.QUERY_DELAYED_FLIGHT_BY_AIRLINE [("airline", .vStr airline)]

/-- `FlightData.get_delayed_flights_by_airport`. -/
def get_delayed_flights_by_airport (ex : Engine) (airport : String) : DalCall :=
  execute_query ex Data.QUERY_DELAYED_FLIGHT_BY_AIRPORT [("airport", .vStr airport)]

end FlightData

def paramInt (ps : Params) (name : String) : Option Int :=
  match lookupCol ps name with
  | some (.vInt n) => some n
  | _ => none

def paramStr (ps : Params) (name : String) : Option String :=
  match lookupCol ps name with
  | some (.vStr s) => some s
  | _ => none

/-- An engine over a concrete store that evaluates each fixed DAL query by its
SQL semantics and never raises. -/
def sqliteEngine (db : DB) : Engine := fun q ps =>
  if q = Data.QUERY_FLIGHT_BY_ID then
    match paramInt ps "id" with
    | some i => .ok (evalFlightById db i)
    | none => .error "missing bind parameter"
  else if q = Data.QUERY_FLIGHT_BY_DATE then
    match paramInt ps "day", paramInt ps "month", paramInt ps "year" with
    | some d, some m, some y => .ok (evalFlightByDate db d m y)
    | _, _, _ => .error "missing bind parameter"
  else if q = Data.QUERY_DELAYED_FLIGHT_BY_AIRLINE then
    match paramStr ps "airline" with
    | some a => .ok (evalDelayedByAirline db a)
    | none => .error "missing bind parameter"
  else if q = Data.QUERY_DELAYED_FLIGHT_BY_AIRPORT then
    match paramStr ps "airport" with
    | some a => .ok (evalDelayedByAirport db a)
    | none => .error "missing bind parameter"
  else .error "unknown query"

/-! ### Query strings and aggregation queries of `src/main.py` -/

namespace Main

def QUERY_PERCENTAGE_DELAYED_BY_AIRLINE : String :=
  "SELECT airlines.AIRLINE, COUNT(CASE WHEN flights.DEPARTURE_DELAY > 0 THEN 1 END) AS delayed_flights, COUNT(*) AS total_flights FROM airlines JOIN flights ON airlines.ID = flights.AIRLINE GROUP BY airlines.AIRLINE"

def QUERY_PERCENTAGE_DELAYED_BY_HOUR : String :=
  "SELECT DEPARTURE_TIME, DEPARTURE_DELAY FROM flights WHERE DEPARTURE_TIME IS NOT NULL AND DEPARTURE_DELAY IS NOT NULL"

def QUERY_HEATMAP_DELAY : String :=
  "SELECT ORIGIN_AIRPORT, DESTINATION_AIRPORT, COUNT(*) AS total_flights, COUNT(CASE WHEN DEPARTURE_DELAY > 0 THEN 1 END) AS  delayed_flights FROM flights WHERE ORIGIN_AIRPORT IS NOT NULL AND DESTINATION_AIRPORT IS NOT NULL GROUP BY ORIGIN_AIRPORT, DESTINATION_AIRPORT"

end Main

/-- `CASE WHEN DEPARTURE_DELAY > 0 THEN 1 END`: counts only rows whose
departure delay is present and strictly positive (`NULL > 0` is not true). -/
def delayedPos (f : Flight) : Bool :=
  match f.departureDelay with
  | some d => 0 < d
  | none => false

/-- `FROM airlines JOIN flights ON airlines.ID = flights.AIRLINE`
(airlines is the left relation in `QUERY_PERCENTAGE_DELAYED_BY_AIRLINE`). -/
def joinAirlinesFlights (db : DB) : List (Airline × Flight) :=
  db.airlines.flatMap (fun a =>
    (db.flights.filter (fun f => a.id == f.airline)).map (fun f => (a, f)))

/-- `COUNT(*)` of the group of `QUERY_PERCENTAGE_DELAYED_BY_AIRLINE`
with `GROUP BY airlines.AIRLINE` key `name`. -/
def airlineTotalCount (db : DB) (name : String) : Nat :=
  ((joinAirlinesFlights db).filter (fun p => p.1.name == name)).length

/-- `COUNT(CASE WHEN flights.DEPARTURE_DELAY > 0 THEN 1 END)` of the same group. -/
def airlineDelayedCount (db : DB) (name : String) : Nat :=
  ((joinAirlinesFlights db).filter
      (fun p => p.1.name == name && delayedPos p.2)).length

/-- Evaluation of `QUERY_PERCENTAGE_DELAYED_BY_HOUR`: the rows
`(DEPARTURE_TIME, DEPARTURE_DELAY)` with both columns non-null.  This WHERE
clause runs before the by-hour aggregation ever sees a row. -/
def evalPercentageDelayedByHourQuery (flights : List Flight) : List (String × Int) :=
  flights.filterMap (fun f =>
    match f.departureTime, f.departureDelay with
    | some t, some d => some (t, d)
    | _, _ => none)

/-- Rows surviving the WHERE clause of `QUERY_HEATMAP_DELAY`
(`ORIGIN_AIRPORT IS NOT NULL AND DESTINATION_AIRPORT IS NOT NULL`). -/
def heatmapRows (db : DB) : List Flight :=
  db.flights.filter (fun f => f.originAirport.isSome && f.destinationAirport.isSome)

/-- `COUNT(*)` for the heatmap group `(o, d)`. -/
def routeTotalCount (db : DB) (o d : String) : Nat :=
  ((heatmapRows db).filter
      (fun f => f.originAirport == some o && f.destinationAirport == some d)).length

/-- `COUNT(CASE WHEN DEPARTURE_DELAY > 0 THEN 1 END)` for the heatmap group `(o, d)`. -/
def routeDelayedCount (db : DB) (o d : String) : Nat :=
  ((heatmapRows db).filter
      (fun f => f.originAirport == some o && f.destinationAirport == some d &&
        delayedPos f)).length

/-! ### The pandas by-hour pipeline of `show_delay_percent_by_hour` -/

/-- Python `str.zfill`: left-pad with zeros to width `n`, inserting the
padding after a leading sign character. -/
def zfill (n : Nat) (s : String) : String :=
  if n ≤ s.length then s
  else
    match s.toList with
    | c :: rest =>
        if c == '+' || c == '-' then
          String.mk (c :: (List.replicate (n - s.length) '0' ++ rest))
        else String.mk (List.replicate (n - s.length) '0' ++ s.toList)
    | [] => String.mk (List.replicate n '0')

def digitVal (c : Char) : Option Nat :=
  if c.isDigit then some (c.toNat - '0'.toNat) else none

def parseDigits : List Char → Option Nat
  | [] => none
  | l => l.foldl (fun acc c =>
      match acc, digitVal c with
      | some n, some d => some (10 * n + d)
      | _, _ => none) (some 0)

/-- Integer parsing as done by `astype(int)` on a string column: an optional
sign followed by decimal digits; anything else raises. -/
def pyInt (s : String) : Option Int :=
  match s.toList with
  | '-' :: rest => (parseDigits rest).map (fun n => -(n : Int))
  | '+' :: rest => (parseDigits rest).map (fun n => (n : Int))
  | l => (parseDigits l).map (fun n => (n : Int))

/-- `df['DEPARTURE_TIME'].astype(str).str.zfill(4)` then `.str[:2].astype(int)`:
the derived hour of one departure-time string. -/
def hourOf (t : String) : Option Int :=
  pyInt (String.mk ((zfill 4 t).toList.take 2))

/-- Hour derivation for every row: `astype(int)` raises on the first
unparsable value, which aborts the whole column assignment (`Except.error`). -/
def deriveHours : List (String × Int) → Except Unit (List (Int × Int))
  | [] => .ok []
  | td :: rest =>
      match hourOf td.1 with
      | none => .error ()
      | some h =>
          match deriveHours rest with
          | .ok l => .ok ((h, td.2) :: l)
          | .error e => .error e

/-- The by-hour preprocessing of `show_delay_percent_by_hour` on the query's
result rows: derive every row's hour, then keep the rows with `HOUR < 24`
(`df = df[df['HOUR'] < 24]`).  The output pairs each surviving row's derived
hour with its departure delay. -/
def byHourTable (rows : List (String × Int)) : Except Unit (List (Int × Int)) :=
  match deriveHours rows with
  | .ok l => .ok (l.filter (fun hd => hd.1 < 24))
  | .error e => .error e

/-- `grouped` total for one hour: `agg(['sum', 'count'])`'s `count`. -/
def byHourTotalCount (table : List (Int × Int)) (h : Int) : Nat :=
  (table.filter (fun hd => hd.1 == h)).length

/-- `grouped` delayed count for one hour: the sum of `DELAYED = delay > 0`. -/
def byHourDelayedCount (table : List (Int × Int)) (h : Int) : Nat :=
  (table.filter (fun hd => hd.1 == h && 0 < hd.2)).length

/-! ### The route-detail map operation (`show_delay_lines_on_route_map`) -/

/-- The apostrophe character used as the SQL string quote. -/
def sq : String := String.singleton (Char.ofNat 39)

/-- The f-string `QUERY_PERCENTAGE_ON_ROUTE_MAP` built by
`show_delay_lines_on_route_map`: the user-supplied origin and destination are
interpolated directly into the query text. -/
def routeMapQueryText (origin destination : String) : String :=
  "SELECT f.ORIGIN_AIRPORT, f.DESTINATION_AIRPORT, " ++
  "COUNT(*) AS total_flights, " ++
  "COUNT(CASE WHEN f.DEPARTURE_DELAY > 0 THEN 1 END) AS delayed_flights, " ++
  "a1.LATITUDE AS origin_lat, a1.LONGITUDE AS origin_lon, " ++
  "a2.LATITUDE AS dest_lat, a2.LONGITUDE AS dest_lon " ++
  "FROM flights f " ++
  "JOIN airports a1 ON f.ORIGIN_AIRPORT = a1.IATA_CODE " ++
  "JOIN airports a2 ON f.DESTINATION_AIRPORT = a2.IATA_CODE " ++
  "WHERE f.ORIGIN_AIRPORT = " ++ sq ++ origin ++ sq ++
  " AND f.DESTINATION_AIRPORT = " ++ sq ++ destination ++ sq ++ " " ++
  "GROUP BY f.ORIGIN_AIRPORT, f.DESTINATION_AIRPORT;"

/-- The bind-parameter dictionary passed with the route-map query: `{}`. -/
def routeMapParams (_origin _destination : String) : Params := []

/-- `df['delay_percent'] = (df['delayed_flights'] / df['total_flights']) * 10`
(source line 55 of `src/main.py`). -/
def delay_percent (delayed total : ℚ) : ℚ :=
  delayed / total * 10

/-- The color bucketing of `show_delay_lines_on_route_map`
(green / orange / red applied to `delay_percent`). -/
def route_color (delay : ℚ) : String :=
  if delay < 10 then "green" else if delay < 30 then "orange" else "red"

/-- Modelled from the spec: `delay_percentage = 100 * delayed_count / total_count`. -/
def specDelayPercentage (delayed total : ℚ) : ℚ :=
  100 * delayed / total

/-- Modelled from the spec: severity bucket `low` if percentage < 10,
`medium` if 10 ≤ percentage < 30, `high` otherwise. -/
def specSeverityBucket (p : ℚ) : String :=
  if p < 10 then "low" else if p < 30 then "medium" else "high"

/-- Modelled from the spec: case-insensitive substring containment,
"airline name fragment (case-insensitive substring match)". -/
def specContainsCI (frag s : String) : Bool :=
  decide ((lowerStr frag).toList <:+: (lowerStr s).toList)

/-! ### The presentation-facing formatting step (`print_results` in `src/main.py`) -/

/-- What processing one result row does: `crash` is an uncaught exception
(`KeyError` from a missing column), `caughtError` a `ValueError` caught by the
`except` clause, `skip` a `continue`, `line` a printed line. -/
inductive RowStep where
  | crash : RowStep
  | caughtError : RowStep
  | skip : RowStep
  | line : String → RowStep
deriving DecidableEq, Repr

/-- The body of the `for` loop of `print_results`, in source order:
`delay = int(result['DELAY']) if result['DELAY'] is not None else 0`
(missing column raises `KeyError`, a non-coercible string raises the caught
`ValueError`), then the `ORIGIN_AIRPORT` / `DESTINATION_AIRPORT` / `AIRLINE`
lookups, the `filter_delay_only` check, and finally the `result['ID']` lookup
and f-string outside the `try` block. -/
def processRow (r : Row) (filter_delay_only : Bool) : RowStep :=
  match lookupCol r "DELAY" with
  | none => .crash
  | some dv =>
      let delayE : Except Unit Int :=
        match dv with
        | .vNull => .ok 0
        | .vInt n => .ok n
        | .vStr s =>
            match pyInt s with
            | some n => .ok n
            | none => .error ()
      match delayE with
      | .error _ => .caughtError
      | .ok delay =>
          match lookupCol r "ORIGIN_AIRPORT", lookupCol r "DESTINATION_AIRPORT",
              lookupCol r "AIRLINE" with
          | some origin, some dest, some airline =>
              if filter_delay_only && delay ≤ 0 then .skip
              else
                match lookupCol r "ID" with
                | none => .crash
                | some idv =>
                    if 0 < delay then
                      .line (idv.pyStr ++ ". " ++ origin.pyStr ++ " -> " ++
                        dest.pyStr ++ " by " ++ airline.pyStr ++ ", Delay: " ++
                        toString delay ++ " Minutes")
                    else
                      .line (idv.pyStr ++ ". " ++ origin.pyStr ++ " -> " ++
                        dest.pyStr ++ " by " ++ airline.pyStr)
          | _, _, _ => .crash

/-- Outcome of `print_results`: either the process aborted on an uncaught
exception, or it finished having printed the given lines. -/
inductive PrintOutcome where
  | crashed : PrintOutcome
  | done : List String → PrintOutcome
deriving DecidableEq, Repr

/-- The loop of `print_results`; a caught `ValueError` prints the diagnostic
and `return`s, skipping the remainder of the batch. -/
def printLoop (filter_delay_only : Bool) : List Row → List String → PrintOutcome
  | [], acc => .done acc.reverse
  | r :: rest, acc =>
      match processRow r filter_delay_only with
      | .crash => .crashed
      | .caughtError => .done (("Error showing results: " :: acc).reverse)
      | .skip => printLoop filter_delay_only rest acc
      | .line s => printLoop filter_delay_only rest (s :: acc)

/-- `print_results`: prints the result count header, then each row. -/
def print_results (results : List Row) (filter_delay_only : Bool) : PrintOutcome :=
  printLoop filter_delay_only results
    ["Got " ++ toString results.length ++ " results."]

/-- The columns `print_results`'s docstring requires each row to contain
(plus `ID`, which the code reads outside the `try` block). -/
def hasRequiredCols (r : Row) : Bool :=
  (lookupCol r "DELAY").isSome && (lookupCol r "ORIGIN_AIRPORT").isSome &&
  (lookupCol r "DESTINATION_AIRPORT").isSome && (lookupCol r "AIRLINE").isSome &&
  (lookupCol r "ID").isSome

/-! ### Concrete fixtures for counterexamples and witnesses -/

/-- An engine whose every execution raises. -/
def failEngine : Engine := fun _ _ => .error "connection failed"

def a0 : Airline := { id := 1, name := "Delta Air Lines Inc." }

def ap0 : Airport :=
  { iata_code := "JFK", name := "John F Kennedy International Airport",
    latitude := some 40, longitude := some (-73) }

/-- A delayed flight with an airline-cause delay recorded. -/
def f0 : Flight :=
  { id := 10, year := 2015, month := 1, day := 1,
    departureTime := some "0930", departureDelay := some 20,
    arrivalDelay := some 15, airlineDelay := some 5, weatherDelay := none,
    securityDelay := none, airSystemDelay := none, lateAircraftDelay := none,
    originAirport := some "JFK", destinationAirport := some "LAX", airline := 1 }

/-- A flight with a recorded departure time but a null departure delay. -/
def fN : Flight :=
  { id := 11, year := 2015, month := 1, day := 2,
    departureTime := some "0930", departureDelay := none,
    arrivalDelay := none, airlineDelay := none, weatherDelay := none,
    securityDelay := none, airSystemDelay := none, lateAircraftDelay := none,
    originAirport := some "JFK", destinationAirport := some "LAX", airline := 1 }

def db0 : DB := { flights := [f0], airlines := [a0], airports := [ap0] }

/-- A well-formed result row whose `DELAY` is NULL. -/
def rowNullDelay : Row :=
  [("ID", .vInt 2), ("ORIGIN_AIRPORT", .vStr "JFK"),
   ("DESTINATION_AIRPORT", .vStr "LAX"), ("AIRLINE", .vStr "Delta Air Lines Inc."),
   ("DELAY", .vNull)]

/-- A result row missing the `DELAY` column entirely. -/
def rowMissingDelay : Row :=
  [("ID", .vInt 3), ("ORIGIN_AIRPORT", .vStr "JFK"),
   ("DESTINATION_AIRPORT", .vStr "LAX"), ("AIRLINE", .vStr "Delta Air Lines Inc.")]

/-- A result row whose `DELAY` value is a non-integer-coercible string. -/
def rowBadDelay : Row :=
  [("ID", .vInt 4), ("ORIGIN_AIRPORT", .vStr "JFK"),
   ("DESTINATION_AIRPORT", .vStr "LAX"), ("AIRLINE", .vStr "Delta Air Lines Inc."),
   ("DELAY", .vStr "abc")]

/-- A flight with a null departure delay but a non-null weather-cause delay. -/
def fW : Flight :=
  { id := 12, year := 2015, month := 1, day := 3,
    departureTime := some "1200", departureDelay := none,
    arrivalDelay := none, airlineDelay := none, weatherDelay := some 7,
    securityDelay := none, airSystemDelay := none, lateAircraftDelay := none,
    originAirport := some "JFK", destinationAirport := some "LAX", airline := 1 }

/-! ## Claim theorems -/

/-- C1: the claim states that the route-detail (map) operation submits one
fixed query string for every pair of user-supplied origin and destination,
binding them as parameters.  The source instead interpolates both strings
into the SQL text (f-string, `src/main.py` lines 38-49) and passes an empty
parameter dictionary: the submitted text differs between inputs and the
spec itself (§7) flags this as a defect of the source to eliminate.  This
theorem evaluates the code at the failing inputs. -/
theorem routeMap_query_interpolates_user_input :
    routeMapQueryText "ORD" "LAX" ≠ routeMapQueryText "JFK" "LAX" ∧
    routeMapQueryText "ORD" "LAX" ≠ routeMapQueryText "ORD" "SFO" ∧
    routeMapParams "ORD" "LAX" = [] ∧ routeMapParams "JFK" "LAX" = [] := by
  refine ⟨?_, ?_, rfl, rfl⟩ <;> · set_option maxRecDepth 8000 in decide

/-- C3: the claim states the route-detail percentage is `100 * d / t` with
bucket `medium` at the 10-percent boundary (2 delayed of 20 total).  The
source computes `(delayed / total) * 10` (`src/main.py` line 55), so 2 of 20
yields 1.0 and color `green` (the `low` bucket), while the spec-modelled
percentage is 10.0 with bucket `medium`.  The code contradicts its own
`% delayed` popup label and its sibling heatmap computation, which uses 100. -/
theorem route_map_bucket_at_two_of_twenty :
    delay_percent 2 20 = 1 ∧ route_color (delay_percent 2 20) = "green" ∧
    specDelayPercentage 2 20 = 10 ∧
    specSeverityBucket (specDelayPercentage 2 20) = "medium" := by
  have h1 : delay_percent 2 20 = 1 := by norm_num [delay_percent]
  have h2 : specDelayPercentage 2 20 = 10 := by norm_num [specDelayPercentage]
  refine ⟨h1, ?_, h2, ?_⟩
  · rw [h1, route_color]; norm_num
  · rw [h2, specSeverityBucket]; norm_num

/-- C2 counterexample: a flight with a recorded departure time and a null
departure delay is removed by the by-hour aggregation's own query
(`WHERE ... DEPARTURE_DELAY IS NOT NULL`), so it is excluded from that
aggregation's denominator; and `print_results` with `filter_delay_only`
drops a null-delay row (delay treated as 0, then `continue`).  Both refute
"counted in total_count in every aggregation" and "never dropped". -/
theorem null_delay_flight_excluded_by_hour_and_droppable :
    fN.departureDelay = none ∧ fN.departureTime = some "0930" ∧
    evalPercentageDelayedByHourQuery [fN] = [] ∧
    byHourTable (evalPercentageDelayedByHourQuery [fN]) = .ok [] ∧
    print_results [rowNullDelay] true = .done ["Got 1 results."] := by
  refine ⟨rfl, rfl, rfl, rfl, by decide⟩

/-- C4 counterexample: airline "Delta Air Lines Inc." contains the fragment
"Delta" as a case-insensitive substring and the store holds an
otherwise-qualifying delayed flight of that airline, yet
`get_delayed_flights_by_airline` returns no rows: the query uses
`LIKE LOWER(:airline)` with no wildcards around the fragment, an exact
match rather than a substring match. -/
theorem substring_fragment_returns_no_rows :
    specContainsCI "Delta" a0.name = true ∧
    f0.departureDelay.isSome = true ∧ causeNonNull f0 = true ∧
    f0.airline = a0.id ∧ f0 ∈ db0.flights ∧ a0 ∈ db0.airlines ∧
    (FlightData.get_delayed_flights_by_airline (sqliteEngine db0) "Delta").rows
      = [] := by
  set_option maxRecDepth 8000 in decide

/-- C5 counterexample: a row missing the `DELAY` column makes
`print_results` raise an uncaught `KeyError` (`result['DELAY']` is read
inside a `try` that catches only `ValueError` and `SQLAlchemyError`), so the
formatting step aborts instead of skipping the row. -/
theorem missing_column_crashes_print_results :
    lookupCol rowMissingDelay "DELAY" = none ∧
    print_results [rowMissingDelay] false = .crashed := by
  decide

/-- C9 counterexample: a departure-time string whose derived hour is
negative is kept by the by-hour pipeline: the code filters only
`HOUR < 24` and has no lower bound, so hour `-1` (from "-100") survives
although it is outside `[0, 23]`. -/
theorem negative_hour_not_discarded :
    byHourTable [("-100", 5)] = .ok [(-1, 5)] ∧ hourOf "-100" = some (-1) ∧
    (-1 : Int) < 0 := by
  refine ⟨rfl, rfl, by norm_num⟩

/-- C8: the two delayed-flight WHERE clauses are asymmetric exactly as
specified.  `whereDelayedByAirline` (the filter of
`QUERY_DELAYED_FLIGHT_BY_AIRLINE`) holds iff departure delay is non-null AND
one of the cause fields (airline, weather, security, air-system,
late-aircraft, or arrival delay) is non-null (and the LIKE filter matches);
`whereDelayedByAirport` requires only the disjunction, with no standalone
departure-delay condition; and a flight with null departure delay but a
weather-cause delay passes the airport filter while failing the airline one. -/
theorem delayed_filters_exact_asymmetry :
    (∀ (pat : String) (f : Flight) (a : Airline),
        whereDelayedByAirline pat f a = true ↔
          f.departureDelay ≠ none ∧
          (f.airlineDelay ≠ none ∨ f.weatherDelay ≠ none ∨ f.securityDelay ≠ none ∨
           f.airSystemDelay ≠ none ∨ f.lateAircraftDelay ≠ none ∨
           f.arrivalDelay ≠ none) ∧
          likeCI pat a.name = true) ∧
    (∀ (pat : String) (f : Flight) (ap : Airport),
        whereDelayedByAirport pat f ap = true ↔
          (f.departureDelay ≠ none ∨ f.airlineDelay ≠ none ∨ f.weatherDelay ≠ none ∨
           f.securityDelay ≠ none ∨ f.airSystemDelay ≠ none ∨
           f.lateAircraftDelay ≠ none ∨ f.arrivalDelay ≠ none) ∧
          likeCI pat ap.iata_code = true) ∧
    (∃ (f : Flight) (ap : Airport) (a : Airline) (pat : String),
        f.departureDelay = none ∧ whereDelayedByAirport pat f ap = true ∧
        whereDelayedByAirline pat f a = false) := by
  refine ⟨?_, ?_, ⟨fW, ap0, a0, "%", rfl, by decide, by decide⟩⟩
  · intro pat f a
    simp only [whereDelayedByAirline, causeNonNull, Bool.and_eq_true,
      Bool.or_eq_true, Option.isSome_iff_ne_none]
    tauto
  · intro pat f ap
    simp only [whereDelayedByAirport, causeNonNull, Bool.and_eq_true,
      Bool.or_eq_true, Option.isSome_iff_ne_none]
    tauto

/-- C6: no execution failure of the underlying engine propagates out of the
DAL.  For every engine, query and parameter list, if the engine raises
(`Except.error`) then `_execute_query` returns an empty row list together
with a printed diagnostic, each DAL operation likewise returns no rows, and
the caller-visible rows coincide with those of an engine that succeeded with
zero matches — a failed query is indistinguishable from no matches. -/
theorem dal_execution_failures_return_empty (ex : Engine) :
    (∀ q ps e, ex q ps = .error e →
        FlightData.execute_query ex q ps =
          { rows := [], executed := [(q, ps)],
            messages := ["Error executing query: " ++ e] }) ∧
    (∀ i e, ex Data.QUERY_FLIGHT_BY_ID [("id", .vInt i)] = .error e →
        (FlightData.get_flight_by_id ex i).rows = []) ∧
    (∀ d m y e, ex Data.QUERY_FLIGHT_BY_DATE
          [("day", .vInt d), ("month", .vInt m), ("year", .vInt y)] = .error e →
        (FlightData.get_flights_by_date ex d m y).rows = []) ∧
    (∀ a e, ex Data.QUERY_DELAYED_FLIGHT_BY_AIRLINE [("airline", .vStr a)]
          = .error e →
        (FlightData.get_delayed_flights_by_airline ex a).rows = []) ∧
    (∀ a e, ex Data.QUERY_DELAYED_FLIGHT_BY_AIRPORT [("airport", .vStr a)]
          = .error e →
        (FlightData.get_delayed_flights_by_airport ex a).rows = []) ∧
    (∀ q ps e (ex2 : Engine), ex q ps = .error e → ex2 q ps = .ok [] →
        (FlightData.execute_query ex q ps).rows =
          (FlightData.execute_query ex2 q ps).rows) := by
  refine ⟨?_, ?_, ?_, ?_, ?_, ?_⟩
  · intro q ps e h
    simp [FlightData.execute_query, h]
  · intro i e h
    simp [FlightData.get_flight_by_id, FlightData.execute_query, h]
  · intro d m y e h
    unfold FlightData.get_flights_by_date
    split
    · simp [FlightData.execute_query, h]
    · rfl
  · intro a e h
    simp [FlightData.get_delayed_flights_by_airline, FlightData.execute_query, h]
  · intro a e h
    simp [FlightData.get_delayed_flights_by_airport, FlightData.execute_query, h]
  · intro q ps e ex2 h h2
    simp [FlightData.execute_query, h, h2]

/-- C6 witness: the theorem applied to an engine whose every execution
raises, at a concrete flight id. -/
theorem dal_execution_failures_return_empty_witness :
    (FlightData.get_flight_by_id failEngine 5).rows = [] :=
  (dal_execution_failures_return_empty failEngine).2.1 5 "connection failed" rfl

/-- Helper: Python datetime validity implies the spec's calendar validity
(datetime additionally restricts the year to 1..9999). -/
lemma datetimeValid_imp_specValidDate (y m d : Int)
    (h : datetimeValid y m d = true) : specValidDate d m y = true := by
  simp only [datetimeValid, Bool.and_eq_true, decide_eq_true_eq] at h
  simp only [specValidDate, Bool.and_eq_true, decide_eq_true_eq]
  tauto

/-- Helper: the store engine maps the by-date query to its SQL semantics. -/
lemma sqliteEngine_flight_by_date (db : DB) (d m y : Int) :
    sqliteEngine db Data.QUERY_FLIGHT_BY_DATE
      [("day", .vInt d), ("month", .vInt m), ("year", .vInt y)] =
      .ok (evalFlightByDate db d m y) := by
  unfold sqliteEngine
  rw [if_neg (by set_option maxRecDepth 8000 in decide), if_pos rfl]
  rfl

/-- Helper: the store engine maps the by-airline query to its SQL semantics. -/
lemma sqliteEngine_delayed_by_airline (db : DB) (pat : String) :
    sqliteEngine db Data.QUERY_DELAYED_FLIGHT_BY_AIRLINE [("airline", .vStr pat)] =
      .ok (evalDelayedByAirline db pat) := by
  unfold sqliteEngine
  rw [if_neg (by set_option maxRecDepth 8000 in decide),
    if_neg (by set_option maxRecDepth 8000 in decide), if_pos rfl]
  rfl

/-- Helper: the store engine maps the by-airport query to its SQL semantics. -/
lemma sqliteEngine_delayed_by_airport (db : DB) (pat : String) :
    sqliteEngine db Data.QUERY_DELAYED_FLIGHT_BY_AIRPORT [("airport", .vStr pat)] =
      .ok (evalDelayedByAirport db pat) := by
  unfold sqliteEngine
  rw [if_neg (by set_option maxRecDepth 8000 in decide),
    if_neg (by set_option maxRecDepth 8000 in decide),
    if_neg (by set_option maxRecDepth 8000 in decide), if_pos rfl]
  rfl

lemma get_delayed_by_airline_eval (db : DB) (pat : String) :
    (FlightData.get_delayed_flights_by_airline (sqliteEngine db) pat).rows =
      evalDelayedByAirline db pat := by
  simp [FlightData.get_delayed_flights_by_airline, FlightData.execute_query,
    sqliteEngine_delayed_by_airline]

lemma get_delayed_by_airport_eval (db : DB) (pat : String) :
    (FlightData.get_delayed_flights_by_airport (sqliteEngine db) pat).rows =
      evalDelayedByAirport db pat := by
  simp [FlightData.get_delayed_flights_by_airport, FlightData.execute_query,
    sqliteEngine_delayed_by_airport]

lemma lookup_rowFlightAirline_DAY (f : Flight) (a : Airline) :
    lookupCol (rowFlightAirline f a) "DAY" = some (.vInt f.day) := rfl

lemma lookup_rowFlightAirline_MONTH (f : Flight) (a : Airline) :
    lookupCol (rowFlightAirline f a) "MONTH" = some (.vInt f.month) := rfl

lemma lookup_rowFlightAirline_YEAR (f : Flight) (a : Airline) :
    lookupCol (rowFlightAirline f a) "YEAR" = some (.vInt f.year) := rfl

/-- C7: for a store engine evaluating the fixed by-date query by its SQL
semantics, an invalid day/month/year triple (per days-in-month and leap
years) makes `get_flights_by_date` return no rows, submit no query to the
engine, and report the validation diagnostic; and every row it does return
carries exactly the requested stored day, month and year. -/
theorem flights_by_date_validation_and_exactness (db : DB) (day month year : Int) :
    (specValidDate day month year = false →
        FlightData.get_flights_by_date (sqliteEngine db) day month year =
          { rows := [], executed := [],
            messages := ["Invalid date format. Use DD/MM/YYYY."] }) ∧
    (∀ r ∈ (FlightData.get_flights_by_date (sqliteEngine db) day month year).rows,
        lookupCol r "DAY" = some (.vInt day) ∧
        lookupCol r "MONTH" = some (.vInt month) ∧
        lookupCol r "YEAR" = some (.vInt year)) := by
  constructor
  · intro h
    have hd : datetimeValid year month day = false := by
      cases hdt : datetimeValid year month day
      · rfl
      · exact absurd (datetimeValid_imp_specValidDate year month day hdt)
          (by simp [h])
    set_option maxRecDepth 8000 in simp [FlightData.get_flights_by_date, hd]
  · intro r hr
    cases hv : datetimeValid year month day
    · set_option maxRecDepth 8000 in
        simp [FlightData.get_flights_by_date, hv] at hr
    · rw [FlightData.get_flights_by_date, if_pos hv] at hr
      set_option maxRecDepth 8000 in
        simp only [FlightData.execute_query, sqliteEngine_flight_by_date] at hr
      rw [evalFlightByDate] at hr
      obtain ⟨⟨f, a⟩, hp, rfl⟩ := List.mem_map.mp hr
      have hcond := (List.mem_filter.mp hp).2
      simp only [Bool.and_eq_true, beq_iff_eq] at hcond
      obtain ⟨⟨h1, h2⟩, h3⟩ := hcond
      rw [lookup_rowFlightAirline_DAY, lookup_rowFlightAirline_MONTH,
        lookup_rowFlightAirline_YEAR, h1, h2, h3]
      exact ⟨rfl, rfl, rfl⟩

/-- C7 witness: February 31st, 2015 is rejected without any engine access. -/
theorem flights_by_date_validation_witness :
    FlightData.get_flights_by_date (sqliteEngine db0) 31 2 2015 =
      { rows := [], executed := [],
        messages := ["Invalid date format. Use DD/MM/YYYY."] } :=
  (flights_by_date_validation_and_exactness db0 31 2 2015).1 (by decide)

/-- Helper: membership characterization of the by-airline query result. -/
lemma mem_evalDelayedByAirline (db : DB) (pat : String) (r : Row) :
    r ∈ evalDelayedByAirline db pat ↔
      ∃ f ∈ db.flights, ∃ a ∈ db.airlines, a.id = f.airline ∧
        f.departureDelay.isSome = true ∧ causeNonNull f = true ∧
        likeCI pat a.name = true ∧ r = rowDelayedByAirlineQuery f a := by
  constructor
  · intro h
    obtain ⟨⟨f, a⟩, hp, rfl⟩ := List.mem_map.mp h
    obtain ⟨hmem, hcond⟩ := List.mem_filter.mp hp
    obtain ⟨f2, hf2, hmap⟩ := List.mem_flatMap.mp hmem
    obtain ⟨a2, ha2, heq⟩ := List.mem_map.mp hmap
    obtain ⟨ha2mem, ha2id⟩ := List.mem_filter.mp ha2
    cases heq
    simp only [whereDelayedByAirline, Bool.and_eq_true] at hcond
    obtain ⟨⟨hdep, hcause⟩, hlike⟩ := hcond
    exact ⟨f, hf2, a, ha2mem, by simpa using ha2id, hdep, hcause, hlike, rfl⟩
  · rintro ⟨f, hf, a, ha, hid, hdep, hcause, hlike, rfl⟩
    refine List.mem_map.mpr ⟨(f, a), List.mem_filter.mpr ⟨?_, ?_⟩, rfl⟩
    · exact List.mem_flatMap.mpr
        ⟨f, hf, List.mem_map.mpr ⟨a, List.mem_filter.mpr ⟨ha, by simp [hid]⟩, rfl⟩⟩
    · simp [whereDelayedByAirline, hdep, hcause, hlike]

/-- Helper: membership characterization of the by-airport query result. -/
lemma mem_evalDelayedByAirport (db : DB) (pat : String) (r : Row) :
    r ∈ evalDelayedByAirport db pat ↔
      ∃ f ∈ db.flights, ∃ ap ∈ db.airports, f.originAirport = some ap.iata_code ∧
        (f.departureDelay.isSome || causeNonNull f) = true ∧
        likeCI pat ap.iata_code = true ∧ r = rowDelayedByAirportQuery f ap := by
  constructor
  · intro h
    obtain ⟨⟨f, ap⟩, hp, rfl⟩ := List.mem_map.mp h
    obtain ⟨hmem, hcond⟩ := List.mem_filter.mp hp
    obtain ⟨f2, hf2, hmap⟩ := List.mem_flatMap.mp hmem
    obtain ⟨ap2, hap2, heq⟩ := List.mem_map.mp hmap
    obtain ⟨hap2mem, hap2id⟩ := List.mem_filter.mp hap2
    cases heq
    simp only [whereDelayedByAirport, Bool.and_eq_true] at hcond
    obtain ⟨hor, hlike⟩ := hcond
    exact ⟨f, hf2, ap, hap2mem, by simpa using hap2id, hor, hlike, rfl⟩
  · rintro ⟨f, hf, ap, hap, hid, hor, hlike, rfl⟩
    refine List.mem_map.mpr ⟨(f, ap), List.mem_filter.mpr ⟨?_, ?_⟩, rfl⟩
    · exact List.mem_flatMap.mpr
        ⟨f, hf, List.mem_map.mpr ⟨ap, List.mem_filter.mpr ⟨hap, by simp [hid]⟩, rfl⟩⟩
    · simp [whereDelayedByAirport, hor, hlike]

/-- C4 amended: for a store engine evaluating the fixed queries by their SQL
semantics, `get_delayed_flights_by_airline` returns exactly the
otherwise-qualifying rows whose airline display name matches the fragment as
a case-insensitive SQL LIKE pattern (an exact match unless the caller
supplies `%` or `_` wildcards), and `get_delayed_flights_by_airport` does
the same on the origin airport IATA code — not substring containment. -/
theorem delayed_fragment_filters_are_like_patterns (db : DB) (frag : String) :
    ((FlightData.get_delayed_flights_by_airline (sqliteEngine db) frag).rows =
        evalDelayedByAirline db frag) ∧
    (∀ r, r ∈ evalDelayedByAirline db frag ↔
        ∃ f ∈ db.flights, ∃ a ∈ db.airlines, a.id = f.airline ∧
          f.departureDelay.isSome = true ∧ causeNonNull f = true ∧
          likeCI frag a.name = true ∧ r = rowDelayedByAirlineQuery f a) ∧
    ((FlightData.get_delayed_flights_by_airport (sqliteEngine db) frag).rows =
        evalDelayedByAirport db frag) ∧
    (∀ r, r ∈ evalDelayedByAirport db frag ↔
        ∃ f ∈ db.flights, ∃ ap ∈ db.airports, f.originAirport = some ap.iata_code ∧
          (f.departureDelay.isSome || causeNonNull f) = true ∧
          likeCI frag ap.iata_code = true ∧ r = rowDelayedByAirportQuery f ap) :=
  ⟨get_delayed_by_airline_eval db frag, mem_evalDelayedByAirline db frag,
   get_delayed_by_airport_eval db frag, mem_evalDelayedByAirport db frag⟩

/-- C4 amended witness: with explicit `%` wildcards the fragment does match,
and the qualifying row is returned. -/
theorem delayed_fragment_filters_witness :
    rowDelayedByAirlineQuery f0 a0 ∈ evalDelayedByAirline db0 "%delta%" :=
  ((delayed_fragment_filters_are_like_patterns db0 "%delta%").2.1 _).mpr
    ⟨f0, by decide, a0, by decide, by decide, by decide, by decide, by decide, rfl⟩

lemma lookup_rowAirportQuery_AIRLINE (f : Flight) (ap : Airport) :
    lookupCol (rowDelayedByAirportQuery f ap) "AIRLINE" = some (.vInt f.airline) :=
  rfl

/-- C10: every row of the by-airport query carries in its `AIRLINE` column
the flights table's airline foreign-key identifier (the query joins only the
airports table, never airlines, so `flights.*` supplies the only column named
`AIRLINE`); and `print_results` formats such a row with that identifier in
the airline position of the printed line. -/
theorem airport_rows_airline_column_is_fk (db : DB) (pat : String) :
    ((FlightData.get_delayed_flights_by_airport (sqliteEngine db) pat).rows =
        evalDelayedByAirport db pat) ∧
    (∀ r ∈ evalDelayedByAirport db pat,
        ∃ f ∈ db.flights, lookupCol r "AIRLINE" = some (.vInt f.airline) ∧
          ∃ ap ∈ db.airports, r = rowDelayedByAirportQuery f ap) ∧
    (∀ (f : Flight) (ap : Airport) (d : Int), f.departureDelay = some d → 0 < d →
        processRow (rowDelayedByAirportQuery f ap) false =
          .line (toString f.id ++ ". " ++ (optStr f.originAirport).pyStr ++
            " -> " ++ (optStr f.destinationAirport).pyStr ++ " by " ++
            toString f.airline ++ ", Delay: " ++ toString d ++ " Minutes")) := by
  refine ⟨get_delayed_by_airport_eval db pat, ?_, ?_⟩
  · intro r hr
    obtain ⟨f, hf, ap, hap, _, _, _, rfl⟩ :=
      (mem_evalDelayedByAirport db pat r).mp hr
    exact ⟨f, hf, lookup_rowAirportQuery_AIRLINE f ap, ap, hap, rfl⟩
  · intro f ap d hd hpos
    have hD : lookupCol (rowDelayedByAirportQuery f ap) "DELAY" =
        some (optInt f.departureDelay) := rfl
    rw [hd] at hD
    have hO : lookupCol (rowDelayedByAirportQuery f ap) "ORIGIN_AIRPORT" =
        some (optStr f.originAirport) := rfl
    have hDe : lookupCol (rowDelayedByAirportQuery f ap) "DESTINATION_AIRPORT" =
        some (optStr f.destinationAirport) := rfl
    have hI : lookupCol (rowDelayedByAirportQuery f ap) "ID" =
        some (.vInt f.id) := rfl
    simp [processRow, hD, hO, hDe, hI, lookup_rowAirportQuery_AIRLINE,
      optInt, hpos, Value.pyStr]

/-- C10 witness: the concrete airport-query row of `f0` joined with `ap0`
prints the numeric airline identifier 1, not a display name. -/
theorem airport_rows_airline_column_witness :
    processRow (rowDelayedByAirportQuery f0 ap0) false =
      .line "10. JFK -> LAX by 1, Delay: 20 Minutes" :=
  (airport_rows_airline_column_is_fk db0 "jfk").2.2 f0 ap0 20 rfl (by norm_num)

/-- Helper: a row containing all required columns never makes the loop body
raise an uncaught exception. -/
lemma processRow_ne_crash (r : Row) (fl : Bool) (h : hasRequiredCols r = true) :
    processRow r fl ≠ .crash := by
  simp only [hasRequiredCols, Bool.and_eq_true, Option.isSome_iff_exists] at h
  obtain ⟨⟨⟨⟨⟨dv, hdv⟩, ⟨ov, hov⟩⟩, ⟨ev, hev⟩⟩, ⟨av, hav⟩⟩, ⟨iv, hiv⟩⟩ := h
  rcases dv with n | str | _
  · simp only [processRow, hdv, hov, hev, hav, hiv]
    split
    · simp
    · split <;> simp
  · simp only [processRow, hdv, hov, hev, hav, hiv]
    cases hp : pyInt str
    · simp
    · simp only []
      split
      · simp
      · split <;> simp
  · simp only [processRow, hdv, hov, hev, hav, hiv]
    split
    · simp
    · split <;> simp

/-- Helper: the printing loop cannot crash over complete rows. -/
lemma printLoop_ne_crashed (fl : Bool) (rows : List Row) (acc : List String)
    (h : ∀ r ∈ rows, hasRequiredCols r = true) :
    printLoop fl rows acc ≠ .crashed := by
  induction rows generalizing acc with
  | nil => simp [printLoop]
  | cons r rest ih =>
    have hr := h r (List.mem_cons_self r rest)
    cases hs : processRow r fl with
    | crash => exact absurd hs (processRow_ne_crash r fl hr)
    | caughtError => simp [printLoop, hs]
    | skip =>
        simp only [printLoop, hs]
        exact ih acc (fun x hx => h x (List.mem_cons_of_mem r hx))
    | line str =>
        simp only [printLoop, hs]
        exact ih (str :: acc) (fun x hx => h x (List.mem_cons_of_mem r hx))

/-- C5 amended: a row whose delay value fails to coerce to an integer makes
`print_results` print the diagnostic and return, skipping the remainder of
the batch without aborting; but only `ValueError` (and SQLAlchemy errors)
are caught — over rows that do contain every expected column the step never
aborts, while a missing column raises an uncaught `KeyError`
(see the counterexample). -/
theorem print_results_bad_delay_skips_batch_rest :
    (∀ (results : List Row) (fl : Bool),
        (∀ r ∈ results, hasRequiredCols r = true) →
        print_results results fl ≠ .crashed) ∧
    (∀ (r : Row) (rest : List Row) (fl : Bool) (s : String),
        lookupCol r "DELAY" = some (.vStr s) → pyInt s = none →
        print_results (r :: rest) fl =
          .done ["Got " ++ toString (r :: rest).length ++ " results.",
            "Error showing results: "]) := by
  constructor
  · intro results fl h
    exact printLoop_ne_crashed fl results _ h
  · intro r rest fl s h1 h2
    simp [print_results, printLoop, processRow, h1, h2]

/-- C5 amended witness: a concrete batch led by a row with delay "abc" is
cut short with the diagnostic, no crash. -/
theorem print_results_bad_delay_witness :
    print_results [rowBadDelay] false =
      .done ["Got 1 results.", "Error showing results: "] :=
  print_results_bad_delay_skips_batch_rest.2 rowBadDelay [] false "abc" rfl rfl

/-- Helper: hour derivation distributes over membership when it succeeds. -/
lemma mem_deriveHours (rows : List (String × Int)) (l : List (Int × Int))
    (t : String) (d h : Int) :
    deriveHours rows = .ok l → (t, d) ∈ rows → hourOf t = some h → (h, d) ∈ l := by
  induction rows generalizing l with
  | nil => intro _ hm; simp at hm
  | cons td rest ih =>
    intro hok hm hh
    rw [deriveHours] at hok
    cases hTd : hourOf td.1 with
    | none => rw [hTd] at hok; simp at hok
    | some h2 =>
      rw [hTd] at hok
      cases hR : deriveHours rest with
      | error e => rw [hR] at hok; simp at hok
      | ok l2 =>
        rw [hR] at hok
        simp only [Except.ok.injEq] at hok
        subst hok
        rcases List.mem_cons.mp hm with heq | htail
        · have ht : t = td.1 := congrArg Prod.fst heq
          have hd2 : d = td.2 := congrArg Prod.snd heq
          rw [ht] at hh
          rw [hTd] at hh
          simp only [Option.some.injEq] at hh
          subst hh
          subst hd2
          exact List.mem_cons_self _ _
        · exact List.mem_cons_of_mem _ (ih l2 hR htail hh)

/-- C9 amended: the by-hour pipeline derives the hour from the first two
characters of the zero-padded departure time ("0930", "2359", "0001" give
9, 23, 0 and "2500" gives 25, which is discarded), and its filter keeps
exactly the rows with derived hour strictly below 24: every row at 24 or
above is discarded, but there is no lower bound, so negative derived hours
are retained (see the counterexample). -/
theorem by_hour_filters_only_upper_bound :
    (hourOf "0930" = some 9 ∧ hourOf "2359" = some 23 ∧ hourOf "0001" = some 0 ∧
     hourOf "2500" = some 25 ∧ byHourTable [("2500", 1)] = .ok []) ∧
    (∀ (rows : List (String × Int)) (l : List (Int × Int)),
        byHourTable rows = .ok l →
        (∀ hd ∈ l, hd.1 < 24) ∧
        (∀ (t : String) (d h : Int),
            (t, d) ∈ rows → hourOf t = some h → h < 24 → (h, d) ∈ l)) := by
  constructor
  · exact ⟨rfl, rfl, rfl, rfl, rfl⟩
  · intro rows l hok
    rw [byHourTable] at hok
    cases hD : deriveHours rows with
    | error e => rw [hD] at hok; simp at hok
    | ok l0 =>
      rw [hD] at hok
      simp only [Except.ok.injEq] at hok
      subst hok
      constructor
      · intro hd hmem
        have := (List.mem_filter.mp hmem).2
        simpa using this
      · intro t d h hm hh hlt
        exact List.mem_filter.mpr
          ⟨mem_deriveHours rows l0 t d h hD hm hh, by simpa using hlt⟩

/-- C9 amended witness: "0930" is kept at hour 9, "2500" is discarded, and
the kept hour is below 24. -/
theorem by_hour_filters_witness :
    byHourTable [("0930", 5), ("2500", 1)] = .ok [(9, 5)] ∧
    ((9 : Int), (5 : Int)).1 < 24 :=
  ⟨rfl,
   (by_hour_filters_only_upper_bound.2 [("0930", 5), ("2500", 1)] [(9, 5)] rfl).1
     (9, 5) (by simp)⟩

/-- Helper: length of a filtered flatMap is the sum of per-element lengths. -/
lemma length_filter_flatMap {α β : Type} (l : List α) (g : α → List β)
    (p : β → Bool) :
    ((l.flatMap g).filter p).length =
      (l.map (fun a => ((g a).filter p).length)).sum := by
  induction l with
  | nil => rfl
  | cons a t ih => simp [List.flatMap_cons, List.filter_append, ih]

lemma sum_map_add {α : Type} (l : List α) (f g : α → Nat) :
    (l.map (fun a => f a + g a)).sum = (l.map f).sum + (l.map g).sum := by
  induction l with
  | nil => rfl
  | cons a t ih => simp [ih]; omega

lemma sum_map_ite_one {α : Type} (l : List α) (p : α → Bool) :
    (l.map (fun a => if p a then 1 else 0)).sum = (l.filter p).length := by
  induction l with
  | nil => rfl
  | cons a t ih =>
    cases h : p a <;> simp [List.filter_cons, h, ih]
    omega

/-- Helper: one airline's contribution to the by-airline total count after
prepending a flight. -/
lemma airline_head_total_contrib (a : Airline) (f : Flight) (fl : List Flight)
    (name : String) :
    ((((f :: fl).filter (fun x => a.id == x.airline)).map (fun x => (a, x))).filter
        (fun p => p.1.name == name)).length =
      (((fl.filter (fun x => a.id == x.airline)).map (fun x => (a, x))).filter
        (fun p => p.1.name == name)).length +
      (if a.id == f.airline && a.name == name then 1 else 0) := by
  cases hid : a.id == f.airline <;> cases hn : a.name == name <;>
    simp [List.filter_cons, List.filter_map, Function.comp, hid, hn]

/-- Helper: a non-delayed flight adds nothing to the by-airline delayed count. -/
lemma airline_head_delayed_contrib (a : Airline) (f : Flight) (fl : List Flight)
    (name : String) (hnd : delayedPos f = false) :
    ((((f :: fl).filter (fun x => a.id == x.airline)).map (fun x => (a, x))).filter
        (fun p => p.1.name == name && delayedPos p.2)).length =
      (((fl.filter (fun x => a.id == x.airline)).map (fun x => (a, x))).filter
        (fun p => p.1.name == name && delayedPos p.2)).length := by
  cases hid : a.id == f.airline <;>
    simp [List.filter_cons, hid, hnd]

/-- C2 amended: a flight with null departure delay counts in `total_count`
but never in `delayed_count` for the by-airline and by-route aggregations;
the by-hour aggregation instead excludes such flights entirely through its
query's `DEPARTURE_DELAY IS NOT NULL` clause; and `print_results` treats a
NULL delay as 0, printing the row in the non-delayed format when
`filter_delay_only` is off and dropping it when the flag is on. -/
theorem null_delay_counts_in_total_except_by_hour :
    (∀ (f : Flight) (fl : List Flight) (al : List Airline) (aps : List Airport)
        (name : String), f.departureDelay = none →
        airlineTotalCount ⟨f :: fl, al, aps⟩ name =
          airlineTotalCount ⟨fl, al, aps⟩ name +
            (al.filter (fun a => a.id == f.airline && a.name == name)).length ∧
        airlineDelayedCount ⟨f :: fl, al, aps⟩ name =
          airlineDelayedCount ⟨fl, al, aps⟩ name) ∧
    (∀ (f : Flight) (fl : List Flight) (al : List Airline) (aps : List Airport)
        (o d : String), f.departureDelay = none → f.originAirport = some o →
        f.destinationAirport = some d →
        routeTotalCount ⟨f :: fl, al, aps⟩ o d =
          routeTotalCount ⟨fl, al, aps⟩ o d + 1 ∧
        routeDelayedCount ⟨f :: fl, al, aps⟩ o d =
          routeDelayedCount ⟨fl, al, aps⟩ o d) ∧
    (∀ (f : Flight) (fl : List Flight), f.departureDelay = none →
        evalPercentageDelayedByHourQuery (f :: fl) =
          evalPercentageDelayedByHourQuery fl) ∧
    (∀ (r : Row) (idv ov ev av : Value),
        lookupCol r "DELAY" = some .vNull → lookupCol r "ID" = some idv →
        lookupCol r "ORIGIN_AIRPORT" = some ov →
        lookupCol r "DESTINATION_AIRPORT" = some ev →
        lookupCol r "AIRLINE" = some av →
        processRow r false =
          .line (idv.pyStr ++ ". " ++ ov.pyStr ++ " -> " ++ ev.pyStr ++ " by " ++
            av.pyStr) ∧
        processRow r true = .skip) := by
  refine ⟨?_, ?_, ?_, ?_⟩
  · intro f fl al aps name hnull
    have hnd : delayedPos f = false := by simp [delayedPos, hnull]
    constructor
    · simp only [airlineTotalCount, joinAirlinesFlights, length_filter_flatMap]
      have hpt : ∀ a : Airline,
          ((((f :: fl).filter (fun x => a.id == x.airline)).map
              (fun x => (a, x))).filter (fun p => p.1.name == name)).length =
            (((fl.filter (fun x => a.id == x.airline)).map
              (fun x => (a, x))).filter (fun p => p.1.name == name)).length +
            (if a.id == f.airline && a.name == name then 1 else 0) :=
        fun a => airline_head_total_contrib a f fl name
      rw [List.map_congr_left (fun a _ => hpt a), sum_map_add, sum_map_ite_one]
    · simp only [airlineDelayedCount, joinAirlinesFlights, length_filter_flatMap]
      exact congrArg List.sum (List.map_congr_left
        (fun a _ => airline_head_delayed_contrib a f fl name hnd))
  · intro f fl al aps o d hnull ho hdst
    have hnd : delayedPos f = false := by simp [delayedPos, hnull]
    constructor
    · simp [routeTotalCount, heatmapRows, List.filter_cons, ho, hdst]
    · simp [routeDelayedCount, heatmapRows, List.filter_cons, ho, hdst, hnd]
  · intro f fl hnull
    cases hT : f.departureTime <;>
      simp [evalPercentageDelayedByHourQuery, hnull, hT]
  · intro r idv ov ev av hD hI hO hDe hA
    constructor
    · simp [processRow, hD, hI, hO, hDe, hA]
    · simp [processRow, hD, hI, hO, hDe, hA]

/-- C2 amended witness: the concrete NULL-delay row is printed in the
non-delayed format without the filter and dropped with it. -/
theorem null_delay_presentation_witness :
    processRow rowNullDelay false =
      .line "2. JFK -> LAX by Delta Air Lines Inc." ∧
    processRow rowNullDelay true = .skip :=
  null_delay_counts_in_total_except_by_hour.2.2.2 rowNullDelay
    (.vInt 2) (.vStr "JFK") (.vStr "LAX") (.vStr "Delta Air Lines Inc.")
    rfl rfl rfl rfl rfl

end SkySql
